import Mathlib

/-!
Shallow embedding of the MDM entity-definition / entity-record engine.

The definitions below are translated from the repository's source:
  * `src/backend/models/Entity.js`            (mongoose schema + hooks)
  * `src/backend/models/EntityRecord.js`      (mongoose schema + hooks, and the
    entity-record controller concatenated in the same file)
  * `src/backend/controllers/entityController.js`
  * `src/backend/routes/entityRoutes.js`, `src/backend/routes/entityRecordRoutes.js`
    (express-validator checks that run before the controllers)

Modelling conventions:
  * MongoDB documents are Lean structures; the backing store is a `DB` structure
    holding the entity and record collections as lists.
  * JSON scalar values are modelled by `JsonValue`; the code under verification
    only ever compares record-data values for equality and tests presence, so a
    scalar universe is sufficient.
  * Dates are integer timestamps (milliseconds).
  * JavaScript `undefined` for an absent field is `Option.none`; a JSON `null`
    value is `JsonValue.null`.  For the entity-update `code` field, where the
    controller distinguishes absent / null / string, the type is
    `Option (Option String)`.
  * Each controller is a pure function `DB → inputs → Except ApiError result × DB`,
    returning the (possibly unchanged) store.
-/

/-- JSON scalar values as stored in a record's `data` payload. -/
inductive JsonValue where
  | null
  | bool (b : Bool)
  | num (n : Int)
  | str (s : String)
deriving DecidableEq, Repr

/-- A JSON object: ordered association list of field name / value pairs. -/
abbrev JsonObject := List (String × JsonValue)

/-- Field lookup in a JSON object (JavaScript property access `obj[k]`). -/
def lookupField (o : JsonObject) (k : String) : Option JsonValue :=
  (o.find? (fun kv => kv.1 == k)).map (fun kv => kv.2)

/-- JavaScript truthiness of a JSON value (`null`, `false`, `0` and `""` are falsy). -/
def JsonValue.truthy : JsonValue → Bool
  | .null => false
  | .bool b => b
  | .num n => n != 0
  | .str s => s != ""

/-- Truthiness of an optional boolean property (`undefined` is falsy). -/
def truthyOptBool (o : Option Bool) : Bool :=
  match o with
  | some b => b
  | none => false

/-- `derivedRecordConfig.activation` of the Entity schema (Entity.js lines 47-57). -/
structure ActivationConfig where
  enabled : Bool
  defaultState : Bool
  entityActive : Bool
  useTimeBounding : Bool
deriving DecidableEq, Repr

/-- `derivedRecordConfig.versioning` of the Entity schema (Entity.js lines 58-63). -/
structure VersioningConfig where
  enabled : Bool
deriving DecidableEq, Repr

/-- `derivedRecordConfig.hierarchy` of the Entity schema (Entity.js lines 64-73). -/
structure HierarchyConfig where
  enabled : Bool
  parentLinkField : String
  linkType : String
deriving DecidableEq, Repr

/-- `derivedRecordConfig` of the Entity schema (Entity.js lines 45-74). -/
structure DerivedRecordConfig where
  activation : ActivationConfig
  versioning : VersioningConfig
  hierarchy : HierarchyConfig
deriving DecidableEq, Repr

/-- Schema defaults for `derivedRecordConfig.activation` (Entity.js lines 50-56). -/
def defaultActivation : ActivationConfig :=
  { enabled := true, defaultState := true, entityActive := true, useTimeBounding := false }

/-- Schema default for `derivedRecordConfig.versioning` (Entity.js line 61). -/
def defaultVersioning : VersioningConfig :=
  { enabled := false }

/-- Schema defaults for `derivedRecordConfig.hierarchy` (Entity.js lines 67-72). -/
def defaultHierarchy : HierarchyConfig :=
  { enabled := false, parentLinkField := "parentId", linkType := "_id" }

/-- `schemaDefinition` of the Entity schema (Entity.js lines 80-87).
Property values are kept as raw JSON; the code only tests property existence. -/
structure SchemaDefinition where
  type : String
  properties : JsonObject
  required : List String
deriving DecidableEq, Repr

/-- Schema defaults for `schemaDefinition` (Entity.js lines 82-86). -/
def defaultSchemaDefinition : SchemaDefinition :=
  { type := "object", properties := [], required := [] }

/-- An entity-definition document (Entity.js). -/
structure Entity where
  id : Nat
  code : String
  name : String
  description : String
  derivedRecordConfig : DerivedRecordConfig
  schemaDefinition : SchemaDefinition
  createdBy : Nat
deriving DecidableEq, Repr

/-- An entity-record document (EntityRecord.js lines 4-65).  Note that the
record schema declares no dynamically named parent-link path: the only paths
are the ones listed here, so any other key handed to `EntityRecord.create` is
discarded by mongoose strict mode. -/
structure EntityRecord where
  id : Nat
  entityId : Nat
  entityCode : String
  data : Option JsonObject
  isActive : Bool
  effectiveFrom : Option Int
  effectiveTo : Option Int
  version : Int
  isCurrent : Bool
  expiredAt : Option Int
  createdBy : Nat
  updatedBy : Nat
  createdAt : Int
  updatedAt : Int
deriving DecidableEq, Repr

/-- The backing store: both collections plus a fresh-id counter. -/
structure DB where
  entities : List Entity
  records : List EntityRecord
  nextId : Nat
deriving DecidableEq, Repr

/-- API-level failure results produced by the controllers. -/
inductive ApiError where
  | badRequest (msg : String)
  | notFound (msg : String)
  | validationErrors (msgs : List String)
  | serverError (msg : String)
deriving DecidableEq, Repr

deriving instance DecidableEq for Except

/-- Whether an `Except` result is a success. -/
def exceptOk {α : Type} : Except ApiError α → Bool
  | .ok _ => true
  | .error _ => false

/-- ASCII upper-casing of a string, modelling JavaScript `toUpperCase` and the
mongoose `uppercase: true` setter (entity codes are ASCII). -/
def jsToUpper (s : String) : String :=
  String.mk (s.toList.map Char.toUpper)

/-- Character class of the entity-code pattern `[A-Z0-9_]`. -/
def isEntityCodeChar (c : Char) : Bool :=
  (decide ('A' ≤ c) && decide (c ≤ 'Z')) || (decide ('0' ≤ c) && decide (c ≤ '9')) || c == '_'

/-- The anchored pattern of Entity.js line 22 (one or more allowed characters). -/
def matchesCodePattern (s : String) : Bool :=
  s ≠ "" && s.toList.all isEntityCodeChar

/-- Insertion of an element into a list sorted by the boolean relation `le`. -/
def insertBy {α : Type} (le : α → α → Bool) (x : α) : List α → List α
  | [] => [x]
  | y :: ys => if le x y then x :: y :: ys else y :: insertBy le x ys

/-- Stable insertion sort by the boolean relation `le`; models MongoDB `sort`. -/
def sortBy {α : Type} (le : α → α → Bool) : List α → List α
  | [] => []
  | x :: xs => insertBy le x (sortBy le xs)

/-- Client-supplied partial `activation` config (JSON body fragment). -/
structure ActivationPatch where
  enabled : Option Bool
  defaultState : Option Bool
  entityActive : Option Bool
  useTimeBounding : Option Bool
deriving DecidableEq, Repr

/-- Client-supplied partial `versioning` config. -/
structure VersioningPatch where
  enabled : Option Bool
deriving DecidableEq, Repr

/-- Client-supplied partial `hierarchy` config. -/
structure HierarchyPatch where
  enabled : Option Bool
  parentLinkField : Option String
  linkType : Option String
deriving DecidableEq, Repr

/-- Client-supplied partial `derivedRecordConfig`. -/
structure DRCPatch where
  activation : Option ActivationPatch
  versioning : Option VersioningPatch
  hierarchy : Option HierarchyPatch
deriving DecidableEq, Repr

/-- Filling a partial activation config with the schema defaults.  Mongoose
applies path defaults for paths that are absent, both when a document is
created and when a stored document missing the path is hydrated. -/
def ActivationPatch.fill (p : ActivationPatch) : ActivationConfig :=
  { enabled := p.enabled.getD defaultActivation.enabled
    defaultState := p.defaultState.getD defaultActivation.defaultState
    entityActive := p.entityActive.getD defaultActivation.entityActive
    useTimeBounding := p.useTimeBounding.getD defaultActivation.useTimeBounding }

/-- Filling a partial versioning config with the schema default. -/
def VersioningPatch.fill (p : VersioningPatch) : VersioningConfig :=
  { enabled := p.enabled.getD defaultVersioning.enabled }

/-- Filling a partial hierarchy config with the schema defaults. -/
def HierarchyPatch.fill (p : HierarchyPatch) : HierarchyConfig :=
  { enabled := p.enabled.getD defaultHierarchy.enabled
    parentLinkField := p.parentLinkField.getD defaultHierarchy.parentLinkField
    linkType := p.linkType.getD defaultHierarchy.linkType }

/-- Filling a partial derived-record config with the schema defaults.  A whole
missing sub-object yields that sub-object's defaults. -/
def DRCPatch.fill (p : DRCPatch) : DerivedRecordConfig :=
  { activation := (p.activation.getD ⟨none, none, none, none⟩).fill
    versioning := (p.versioning.getD ⟨none⟩).fill
    hierarchy := (p.hierarchy.getD ⟨none, none, none⟩).fill }

/-- Client-supplied partial `schemaDefinition`. -/
structure SchemaDefPatch where
  type : Option String
  properties : Option JsonObject
  required : Option (List String)
deriving DecidableEq, Repr

/-- Filling a partial schema definition with the schema defaults. -/
def SchemaDefPatch.fill (p : SchemaDefPatch) : SchemaDefinition :=
  { type := p.type.getD defaultSchemaDefinition.type
    properties := p.properties.getD defaultSchemaDefinition.properties
    required := p.required.getD defaultSchemaDefinition.required }

/-- Legacy `config` body fragment accepted by `createEntity`
(entityController.js lines 243-258). -/
structure LegacyConfig where
  enableActivation : Option Bool
  defaultActivationState : Option Bool
  enableRecordLocking : Option Bool
  enableVersioning : Option Bool
  enableHierarchy : Option Bool
  parentLinkField : Option String
  linkType : Option String
deriving DecidableEq, Repr

/-- Request body of `POST /api/entities` (entityController.js createEntity). -/
structure CreateEntityBody where
  code : Option String
  name : Option String
  description : Option String
  isActive : Option Bool
  derivedRecordConfig : Option DRCPatch
  config : Option LegacyConfig
  schemaDefinition : Option SchemaDefPatch
  schema : Option SchemaDefPatch
deriving DecidableEq, Repr

/-- The express-validator checks attached to `POST /api/entities`
(entityRoutes.js lines 14-21): `code` non-empty and matching the uppercase
pattern, `name` non-empty. -/
def createEntityRouteErrors (body : CreateEntityBody) : List String :=
  (match body.code with
   | some c =>
     if c = "" then ["Entity code is required"]
     else if matchesCodePattern c then []
     else ["Entity code must be uppercase alphanumeric with underscores only"]
   | none => ["Entity code is required"]) ++
  (match body.name with
   | some n => if n = "" then ["Entity name is required"] else []
   | none => ["Entity name is required"])

/-- The document-level pre-validate hook of the Entity schema
(Entity.js lines 241-275): every name in `schemaDefinition.required` must be a
key of `schemaDefinition.properties`.  The hook aborts with a plain `Error`
(not a mongoose ValidationError) at the first offending field. -/
def entityPreValidateHook (e : Entity) : Option String :=
  (e.schemaDefinition.required.find? fun f =>
      (lookupField e.schemaDefinition.properties f).isNone).map
    (fun f => "Required field " ++ f ++ " is not defined in properties")

/-- The path validators of the Entity schema (Entity.js lines 15-32): `code`
required and matching the uppercase pattern, `name` required. -/
def entityPathValidatorErrors (e : Entity) : List String :=
  (if e.code = "" then ["Entity code is required."]
   else if matchesCodePattern e.code then []
   else ["Entity code must be uppercase alphanumeric with underscores only"]) ++
  (if e.name = "" then ["Entity name is required."] else [])

/-- Derived-record config assembled by `createEntity`: the client object
filled with schema defaults, or the legacy fallback of
entityController.js lines 242-258. -/
def createEntityConfig (body : CreateEntityBody) : DerivedRecordConfig :=
  match body.derivedRecordConfig with
  | some p => p.fill
  | none =>
    let cfg := body.config
    { activation :=
        { enabled := (cfg.bind (fun c => c.enableActivation)).getD true
          defaultState := (cfg.bind (fun c => c.defaultActivationState)).getD true
          entityActive := body.isActive.getD true
          useTimeBounding := (cfg.bind (fun c => c.enableRecordLocking)).getD false }
      versioning :=
        { enabled := (cfg.bind (fun c => c.enableVersioning)).getD false }
      hierarchy :=
        { enabled := (cfg.bind (fun c => c.enableHierarchy)).getD false
          parentLinkField := (cfg.bind (fun c => c.parentLinkField)).getD "parentId"
          linkType := (cfg.bind (fun c => c.linkType)).getD "_id" } }

/-- Schema definition assembled by `createEntity`
(entityController.js lines 261-276). -/
def createEntitySchemaDef (body : CreateEntityBody) : SchemaDefinition :=
  match body.schemaDefinition with
  | some p => p.fill
  | none =>
    match body.schema with
    | some p => p.fill
    | none => defaultSchemaDefinition

/-- `POST /api/entities`: route validation plus `createEntity` of
entityController.js lines 186-316. -/
def createEntity (db : DB) (userId : Nat) (body : CreateEntityBody) :
    Except ApiError Entity × DB :=
  let routeErrs := createEntityRouteErrors body
  if routeErrs ≠ [] then (.error (.validationErrors routeErrs), db)
  else
    let code := jsToUpper (body.code.getD "")
    match db.entities.find? (fun e => e.code == code) with
    | some _ =>
      (.error (.badRequest ("Entity with code " ++ code ++ " already exists")), db)
    | none =>
      let drc := createEntityConfig body
      let sd := createEntitySchemaDef body
      let e : Entity :=
        { id := db.nextId, code := code, name := body.name.getD ""
          description := body.description.getD "", derivedRecordConfig := drc
          schemaDefinition := sd, createdBy := userId }
      match entityPreValidateHook e with
      | some msg =>
        -- plain Error from the hook: the controller catch sees name ≠ ValidationError
        (.error (.serverError msg), db)
      | none =>
        let verrs := entityPathValidatorErrors e
        if verrs ≠ [] then (.error (.badRequest (String.intercalate ", " verrs)), db)
        else (.ok e, { db with entities := db.entities ++ [e], nextId := db.nextId + 1 })

/-- Request body of `PUT /api/entities/:id`.  The `code` field distinguishes
absent (`none`), JSON null (`some none`) and a string (`some (some s)`),
because the controller's strip is a JavaScript truthiness test. -/
structure EntityPatch where
  code : Option (Option String)
  name : Option String
  description : Option String
  derivedRecordConfig : Option DRCPatch
  schemaDefinition : Option SchemaDefPatch
deriving DecidableEq, Repr

/-- JavaScript truthiness of the `code` field of an update body
(`if (req.body.code)`). -/
def truthyCodeField (c : Option (Option String)) : Bool :=
  match c with
  | some (some s) => s != ""
  | _ => false

/-- Whether a patch explicitly sets `derivedRecordConfig.versioning.enabled`
to `false` (the guard of entityController.js lines 369-370). -/
def patchDisablesVersioning (p : EntityPatch) : Bool :=
  match p.derivedRecordConfig with
  | some dp =>
    match dp.versioning with
    | some vp => vp.enabled == some false
    | none => false
  | none => false

/-- Whether a patch explicitly sets `derivedRecordConfig.hierarchy.enabled`
to `false` (the guard of entityController.js lines 384-385). -/
def patchDisablesHierarchy (p : EntityPatch) : Bool :=
  match p.derivedRecordConfig with
  | some dp =>
    match dp.hierarchy with
    | some hp => hp.enabled == some false
    | none => false
  | none => false

/-- The `$set` application performed by `Entity.findByIdAndUpdate`.  A patched
`derivedRecordConfig` or `schemaDefinition` replaces the whole sub-document
(mongoose `$set` of the parent path does not deep-merge); paths the patch
omits revert to their schema defaults on hydration. -/
def applyEntityPatch (e : Entity) (p : EntityPatch) : Entity :=
  { e with
    code :=
      match p.code with
      | some (some s) => jsToUpper s
      | _ => e.code
    name := p.name.getD e.name
    description := p.description.getD e.description
    derivedRecordConfig :=
      match p.derivedRecordConfig with
      | some dp => dp.fill
      | none => e.derivedRecordConfig
    schemaDefinition :=
      match p.schemaDefinition with
      | some sp => sp.fill
      | none => e.schemaDefinition }

/-- `PUT /api/entities/:id`: route validation plus `updateEntity` of
entityController.js lines 323-443, including the model's
pre-findOneAndUpdate hook (Entity.js lines 178-226) and the update
validators run by `runValidators: true`.  Update validators run the
`required` check only for an explicit null, and document-level pre-validate
hooks do not run on `findByIdAndUpdate`. -/
def updateEntity (db : DB) (entityId : Nat) (body : EntityPatch) :
    Except ApiError Entity × DB :=
  -- route check (entityRoutes.js lines 47-49): name, if provided, non-empty
  if body.name = some "" then
    (.error (.validationErrors ["Entity name is required if provided"]), db)
  else
    -- strip a truthy code field (entityController.js lines 340-347)
    let body1 := if truthyCodeField body.code then { body with code := none } else body
    match db.entities.find? (fun e => e.id == entityId) with
    | none => (.error (.notFound "Entity not found"), db)
    | some e =>
      if e.derivedRecordConfig.versioning.enabled && patchDisablesVersioning body1 then
        (.error (.badRequest "Cannot disable versioning once it has been enabled"), db)
      else if e.derivedRecordConfig.hierarchy.enabled && patchDisablesHierarchy body1 then
        (.error (.badRequest "Cannot disable hierarchy once it has been enabled"), db)
      else
        -- pre-findOneAndUpdate hook: rejects a truthy code in the update
        if truthyCodeField body1.code then
          (.error (.serverError "Entity code cannot be modified after creation"), db)
        else
          -- update validators: required fails on an explicit null code
          match body1.code with
          | some none => (.error (.badRequest "Entity code is required."), db)
          | _ =>
            let e2 := applyEntityPatch e body1
            (.ok e2,
             { db with entities := db.entities.map (fun x => if x.id == entityId then e2 else x) })

/-- Request body of the record create/update endpoints
(`POST`/`PUT /api/entity-records/:entityCode[/:id]`). -/
structure RecordBody where
  data : Option JsonObject
  isActive : Option Bool
  effectiveFrom : Option Int
  effectiveTo : Option Int
  parent : Option JsonValue
deriving DecidableEq, Repr

/-- Reading `entity.entityIsActive` (EntityRecord.js lines 257 and 372).  The
Entity schema declares no `entityIsActive` path — the definition-level
usability flag lives at `derivedRecordConfig.activation.entityActive` — so
this property access on a hydrated mongoose document yields undefined. -/
def entityIsActiveProp (_e : Entity) : Option Bool := none

/-- The `recordData` object assembled by `createEntityRecord`
(EntityRecord.js lines 264-298) before it is handed to
`EntityRecord.create`.  `extra` holds the dynamically named attributes, i.e.
the hierarchy parent link keyed by `derivedRecordConfig.hierarchy.parentLinkField`. -/
structure RecordData where
  entityId : Nat
  entityCode : String
  data : Option JsonObject
  isActive : Option Bool
  effectiveFrom : Option Int
  effectiveTo : Option Int
  createdBy : Nat
  updatedBy : Nat
  extra : JsonObject
deriving DecidableEq, Repr

/-- EntityRecord.js lines 264-298: metadata, activation, time-bounding and
hierarchy handling when building the candidate record. -/
def buildRecordData (entity : Entity) (body : RecordBody) (userId : Nat) : RecordData :=
  let base : RecordData :=
    { entityId := entity.id, entityCode := entity.code, data := body.data
      isActive := none, effectiveFrom := none, effectiveTo := none
      createdBy := userId, updatedBy := userId, extra := [] }
  let withAct :=
    if entity.derivedRecordConfig.activation.enabled then
      let st := body.isActive.getD entity.derivedRecordConfig.activation.defaultState
      { base with isActive := some st }
    else base
  let withTime :=
    if entity.derivedRecordConfig.activation.useTimeBounding then
      { withAct with
        effectiveFrom := body.effectiveFrom
        effectiveTo := body.effectiveTo }
    else withAct
  if entity.derivedRecordConfig.hierarchy.enabled &&
      (body.parent.map JsonValue.truthy).getD false then
    { withTime with
      extra := [(entity.derivedRecordConfig.hierarchy.parentLinkField,
                 body.parent.getD JsonValue.null)] }
  else withTime

/-- `EntityRecord.create`: the document built from `recordData`, with schema
defaults for the paths not supplied and with mongoose strict mode discarding
every key that is not a declared path (in particular the dynamically named
parent link in `extra`). -/
def recordOfData (rd : RecordData) (newId : Nat) (now : Int) : EntityRecord :=
  { id := newId, entityId := rd.entityId, entityCode := jsToUpper rd.entityCode
    data := rd.data
    isActive := rd.isActive.getD true
    effectiveFrom := some (rd.effectiveFrom.getD now)
    effectiveTo := rd.effectiveTo
    version := 1, isCurrent := true, expiredAt := none
    createdBy := rd.createdBy, updatedBy := rd.updatedBy
    createdAt := now, updatedAt := now }

/-- Validation run by the EntityRecord schema on save: the pre-validate hook
(EntityRecord.js lines 76-83) rejecting `effectiveFrom >= effectiveTo` when
both dates are set, plus the `required` path validators (entityId, entityCode,
data, createdBy, updatedBy).  The pre-save hook (lines 86-91) is an empty
placeholder and performs no schema validation of `data`. -/
def recordValidateErrors (r : EntityRecord) : List String :=
  (match r.effectiveFrom, r.effectiveTo with
   | some a, some b =>
     if a ≥ b then ["Effective end date must be after effective start date"] else []
   | _, _ => []) ++
  (if r.entityCode = "" then ["Entity code is required"] else []) ++
  (if r.data.isNone then ["Record data is required"] else [])

/-- `POST /api/entity-records/:entityCode`: route validation
(entityRecordRoutes.js lines 18-24) plus `createEntityRecord` of
EntityRecord.js lines 234-321. -/
def createEntityRecord (db : DB) (userId : Nat) (entityCode : String)
    (body : RecordBody) (now : Int) : Except ApiError EntityRecord × DB :=
  -- route check: data must be supplied
  if body.data.isNone then
    (.error (.validationErrors ["Record data is required"]), db)
  else
    match db.entities.find? (fun e => e.code == jsToUpper entityCode) with
    | none =>
      (.error (.notFound ("Entity with code " ++ entityCode ++ " not found")), db)
    | some entity =>
      -- EntityRecord.js line 257: reads the undefined `entityIsActive` property
      if !truthyOptBool (entityIsActiveProp entity) then
        (.error (.badRequest ("Entity " ++ entity.name ++
          " is currently inactive and cannot accept new records")), db)
      else
        let rd := buildRecordData entity body userId
        let r := recordOfData rd db.nextId now
        match recordValidateErrors r with
        | [] => (.ok r, { db with records := db.records ++ [r], nextId := db.nextId + 1 })
        | errs => (.error (.badRequest (String.intercalate ", " errs)), db)

/-- The in-place mutation of EntityRecord.js lines 379-406: sets `data`,
activation, time bounds and `updatedBy` on the found document.  The
dynamically named parent assignment (lines 400-403) writes a non-schema
property on the document object, which mongoose never persists, and nothing
touches `version`, `isCurrent` or `expiredAt`. -/
def applyRecordPatch (entity : Entity) (r : EntityRecord) (body : RecordBody)
    (userId : Nat) (now : Int) : EntityRecord :=
  let r1 := if body.data.isSome then { r with data := body.data } else r
  let r2 :=
    if entity.derivedRecordConfig.activation.enabled && body.isActive.isSome then
      { r1 with isActive := body.isActive.getD r1.isActive }
    else r1
  let r3 :=
    if entity.derivedRecordConfig.activation.useTimeBounding then
      { r2 with
        effectiveFrom :=
          match body.effectiveFrom with
          | some t => some t
          | none => r2.effectiveFrom
        effectiveTo :=
          match body.effectiveTo with
          | some t => some t
          | none => r2.effectiveTo }
    else r2
  { r3 with updatedBy := userId, updatedAt := now }

/-- `PUT /api/entity-records/:entityCode/:id`: `updateEntityRecord` of
EntityRecord.js lines 328-437. -/
def updateEntityRecord (db : DB) (userId : Nat) (entityCode : String)
    (recordId : Nat) (body : RecordBody) (now : Int) :
    Except ApiError EntityRecord × DB :=
  match db.records.find? (fun r => r.id == recordId && r.entityCode == jsToUpper entityCode) with
  | none => (.error (.notFound "Entity record not found"), db)
  | some r =>
    match db.entities.find? (fun e => e.id == r.entityId) with
    | none => (.error (.notFound "Parent entity definition not found"), db)
    | some entity =>
      -- EntityRecord.js line 372: reads the undefined `entityIsActive` property
      if !truthyOptBool (entityIsActiveProp entity) then
        (.error (.badRequest ("Entity " ++ entity.name ++
          " is currently inactive and records cannot be updated")), db)
      else
        let r2 := applyRecordPatch entity r body userId now
        match recordValidateErrors r2 with
        | [] =>
          (.ok r2,
           { db with records := db.records.map (fun x => if x.id == r.id then r2 else x) })
        | errs => (.error (.badRequest (String.intercalate ", " errs)), db)

/-- Query parameters of `GET /api/entity-records/:entityCode`
(EntityRecord.js line 118). -/
structure RecordsQuery where
  search : Option String
  currentOnly : Option String
  active : Option String
  limit : Option Nat
  page : Option Nat
deriving DecidableEq, Repr

/-- Whether a record matches the mongo query built by `getEntityRecords`
(EntityRecord.js lines 120-137).  The `$text` search over the data payload is
delegated to the store and modelled by the predicate `textMatch`. -/
def matchesRecordsQuery (code : String) (q : RecordsQuery)
    (textMatch : String → JsonObject → Bool) (r : EntityRecord) : Bool :=
  r.entityCode == code &&
  (if q.currentOnly.getD "true" == "true" then r.isCurrent else true) &&
  (match q.active with
   | some a => r.isActive == (a == "true")
   | none => true) &&
  (match q.search with
   | some s => textMatch s (r.data.getD [])
   | none => true)

/-- `GET /api/entity-records/:entityCode`: `getEntityRecords` of
EntityRecord.js lines 115-178 (filter, sort by createdAt descending,
paginate). -/
def getEntityRecords (db : DB) (entityCode : String) (q : RecordsQuery)
    (textMatch : String → JsonObject → Bool) : Except ApiError (List EntityRecord) :=
  let code := jsToUpper entityCode
  match db.entities.find? (fun e => e.code == code) with
  | none => .error (.notFound ("Entity with code " ++ entityCode ++ " not found"))
  | some _ =>
    let matching := db.records.filter (matchesRecordsQuery code q textMatch)
    let sorted := sortBy (fun a b => decide (b.createdAt ≤ a.createdAt)) matching
    let limit := q.limit.getD 20
    let page := q.page.getD 1
    .ok ((sorted.drop ((page - 1) * limit)).take limit)

/-- `getBusinessKeyFields` of EntityRecord.js lines 646-661: the pairs
`(field, data[field])` for every field of `schemaDefinition.required` present
in the data, or null when the data is missing or no pair was collected. -/
def getBusinessKeyFields (entity : Entity) (data : Option JsonObject) : Option JsonObject :=
  match data with
  | none => none
  | some d =>
    let businessKey := entity.schemaDefinition.required.filterMap
      (fun f => (lookupField d f).map (fun v => (f, v)))
    if businessKey.isEmpty then none else some businessKey

/-- MongoDB equality match on the path `data.k`: a `null` condition also
matches documents where the field is missing. -/
def mongoFieldMatches (data : Option JsonObject) (k : String) (v : JsonValue) : Bool :=
  match lookupField (data.getD []) k with
  | some w => v == w
  | none => v == JsonValue.null

/-- `GET /api/entity-records/:entityCode/:id/versions`:
`getEntityRecordVersions` of EntityRecord.js lines 556-640 (business-key
filter, sort by version descending). -/
def getEntityRecordVersions (db : DB) (entityCode : String) (recordId : Nat) :
    Except ApiError (List EntityRecord) :=
  match db.records.find? (fun r => r.id == recordId && r.entityCode == jsToUpper entityCode) with
  | none => .error (.notFound "Entity record not found")
  | some currentRecord =>
    match db.entities.find? (fun e => e.id == currentRecord.entityId) with
    | none => .error (.notFound "Parent entity definition not found")
    | some entity =>
      if !entity.derivedRecordConfig.versioning.enabled then
        .error (.badRequest "Versioning is not enabled for this entity type")
      else
        match getBusinessKeyFields entity currentRecord.data with
        | none => .error (.badRequest "Cannot determine business key for versioning")
        | some businessKey =>
          let matching := db.records.filter (fun r =>
            r.entityCode == jsToUpper entityCode &&
            businessKey.all (fun kv => mongoFieldMatches r.data kv.1 kv.2))
          .ok (sortBy (fun a b => decide (b.version ≤ a.version)) matching)

/-- Partial derived-record config used to create the CUSTOMER definition
(versioning enabled, activation enabled and usable). -/
def customerDRCPatch : DRCPatch :=
  { activation := some
      { enabled := some true, defaultState := some true
        entityActive := some true, useTimeBounding := some false }
    versioning := some { enabled := some true }
    hierarchy := none }

/-- Partial schema definition of the CUSTOMER definition:
`customerCode` is the one required field. -/
def customerSchemaPatch : SchemaDefPatch :=
  { type := none
    properties := some [("customerCode", .str "string"), ("email", .str "string")]
    required := some ["customerCode"] }

/-- Create-definition request body for the CUSTOMER scenario of spec section 8. -/
def createCustomerBody : CreateEntityBody :=
  { code := some "CUSTOMER", name := some "Customer", description := none
    isActive := none, derivedRecordConfig := some customerDRCPatch
    config := none, schemaDefinition := some customerSchemaPatch, schema := none }

/-- The empty store. -/
def dbStart : DB := { entities := [], records := [], nextId := 1 }

/-- The CUSTOMER definition as `createEntity` produces it from `createCustomerBody`. -/
def customerEntity : Entity :=
  { id := 1, code := "CUSTOMER", name := "Customer", description := ""
    derivedRecordConfig :=
      { activation := { enabled := true, defaultState := true, entityActive := true, useTimeBounding := false }
        versioning := { enabled := true }
        hierarchy := { enabled := false, parentLinkField := "parentId", linkType := "_id" } }
    schemaDefinition :=
      { type := "object"
        properties := [("customerCode", .str "string"), ("email", .str "string")]
        required := ["customerCode"] }
    createdBy := 7 }

/-- The store right after the CUSTOMER definition has been created. -/
def dbAfterCreate : DB := { entities := [customerEntity], records := [], nextId := 2 }

/-- Record-create body of the spec section 8 scenario. -/
def goodRecordBody : RecordBody :=
  { data := some [("customerCode", .str "ACME001"), ("email", .str "a@a.com")]
    isActive := none, effectiveFrom := none, effectiveTo := none, parent := none }

/-- A version-1 current CUSTOMER revision, as it would sit in the store. -/
def customerRecord1 : EntityRecord :=
  { id := 2, entityId := 1, entityCode := "CUSTOMER"
    data := some [("customerCode", .str "ACME001"), ("email", .str "a@a.com")]
    isActive := true, effectiveFrom := some 0, effectiveTo := none
    version := 1, isCurrent := true, expiredAt := none
    createdBy := 7, updatedBy := 7, createdAt := 0, updatedAt := 0 }

/-- Store holding the CUSTOMER definition and its version-1 current revision. -/
def dbSeeded : DB := { entities := [customerEntity], records := [customerRecord1], nextId := 3 }

/-- Record-update body of the spec section 8 scenario (changing the email). -/
def updateEmailBody : RecordBody :=
  { data := some [("customerCode", .str "ACME001"), ("email", .str "b@b.com")]
    isActive := none, effectiveFrom := none, effectiveTo := none, parent := none }

/-- Record-create body whose data misses the required `customerCode` field. -/
def missingRequiredBody : RecordBody :=
  { data := some [("email", .str "a@a.com")]
    isActive := none, effectiveFrom := none, effectiveTo := none, parent := none }

/-- A hierarchy-enabled, usable DEPT definition (parent link field `parentDept`). -/
def deptEntity : Entity :=
  { id := 5, code := "DEPT", name := "Department", description := ""
    derivedRecordConfig :=
      { activation := { enabled := true, defaultState := true, entityActive := true, useTimeBounding := false }
        versioning := { enabled := false }
        hierarchy := { enabled := true, parentLinkField := "parentDept", linkType := "_id" } }
    schemaDefinition :=
      { type := "object", properties := [("name", .str "string")], required := ["name"] }
    createdBy := 7 }

/-- Store holding only the DEPT definition. -/
def dbDept : DB := { entities := [deptEntity], records := [], nextId := 9 }

/-- Record-create body supplying a parent reference. -/
def deptBody : RecordBody :=
  { data := some [("name", .str "Sales")]
    isActive := none, effectiveFrom := none, effectiveTo := none
    parent := some (.str "60f7a4c67d0d8992e610c83") }

/-- A time-bounded, usable CONTRACT definition. -/
def contractEntity : Entity :=
  { id := 6, code := "CONTRACT", name := "Contract", description := ""
    derivedRecordConfig :=
      { activation := { enabled := true, defaultState := true, entityActive := true, useTimeBounding := true }
        versioning := { enabled := false }
        hierarchy := { enabled := false, parentLinkField := "parentId", linkType := "_id" } }
    schemaDefinition :=
      { type := "object", properties := [("title", .str "string")], required := ["title"] }
    createdBy := 7 }

/-- Store holding only the CONTRACT definition. -/
def dbContract : DB := { entities := [contractEntity], records := [], nextId := 9 }

/-- Record-create body with `effectiveFrom` (2024-01-01) after `effectiveTo`
(2023-01-01), the spec section 8 ordering scenario. -/
def badTimeBody : RecordBody :=
  { data := some [("title", .str "C1")]
    isActive := none, effectiveFrom := some 1704067200000, effectiveTo := some 1672531200000
    parent := none }

/-- Update patch containing `derivedRecordConfig` but omitting its
`versioning` sub-object. -/
def omitVersioningPatch : EntityPatch :=
  { code := none, name := none, description := none
    derivedRecordConfig := some
      { activation := some
          { enabled := some true, defaultState := some true
            entityActive := some true, useTimeBounding := some false }
        versioning := none
        hierarchy := none }
    schemaDefinition := none }

/-- Update patch that explicitly sets `versioning.enabled` to false. -/
def explicitDisablePatch : EntityPatch :=
  { code := none, name := none, description := none
    derivedRecordConfig := some
      { activation := none, versioning := some { enabled := some false }, hierarchy := none }
    schemaDefinition := none }

/-- Update patch whose `code` field is JSON null and which also renames. -/
def nullCodePatch : EntityPatch :=
  { code := some none, name := some "Renamed", description := none
    derivedRecordConfig := none, schemaDefinition := none }

/-- A retired (isCurrent = false) CUSTOMER revision for listing tests. -/
def retiredRecord : EntityRecord :=
  { id := 3, entityId := 1, entityCode := "CUSTOMER"
    data := some [("customerCode", .str "ACME001"), ("email", .str "old@a.com")]
    isActive := true, effectiveFrom := some 0, effectiveTo := none
    version := 1, isCurrent := false, expiredAt := some 500
    createdBy := 7, updatedBy := 7, createdAt := 10, updatedAt := 10 }

/-- Store holding a current and a retired CUSTOMER revision. -/
def dbTwoRevisions : DB :=
  { entities := [customerEntity], records := [customerRecord1, retiredRecord], nextId := 4 }

/-- A records query supplying no parameters at all. -/
def emptyRecordsQuery : RecordsQuery :=
  { search := none, currentOnly := none, active := none, limit := none, page := none }

/-- A trivial stand-in for the store's text search (never consulted when no
search parameter is supplied). -/
def noTextMatch : String → JsonObject → Bool := fun _ _ => false

/-- An ASSET definition with both versioning and hierarchy enabled. -/
def bothEntity : Entity :=
  { id := 8, code := "ASSET", name := "Asset", description := ""
    derivedRecordConfig :=
      { activation := { enabled := true, defaultState := true, entityActive := true, useTimeBounding := false }
        versioning := { enabled := true }
        hierarchy := { enabled := true, parentLinkField := "parentAsset", linkType := "_id" } }
    schemaDefinition :=
      { type := "object", properties := [("tag", .str "string")], required := ["tag"] }
    createdBy := 7 }

/-- Store holding only the ASSET definition. -/
def dbBoth : DB := { entities := [bothEntity], records := [], nextId := 9 }

/-- Update patch that explicitly sets `hierarchy.enabled` to false only. -/
def hierDisablePatch : EntityPatch :=
  { code := none, name := none, description := none
    derivedRecordConfig := some
      { activation := none, versioning := none
        hierarchy := some { enabled := some false, parentLinkField := none, linkType := none } }
    schemaDefinition := none }

/-- A rename patch without a code field. -/
def renameBase : EntityPatch :=
  { code := none, name := some "Customer Master", description := none
    derivedRecordConfig := none, schemaDefinition := none }

/-- A record lying inside a valid effective window. -/
def okWindowRecord : EntityRecord :=
  { id := 11, entityId := 6, entityCode := "CONTRACT"
    data := some [("title", .str "C1")]
    isActive := true, effectiveFrom := some 5, effectiveTo := some 7
    version := 1, isCurrent := true, expiredAt := none
    createdBy := 7, updatedBy := 7, createdAt := 0, updatedAt := 0 }

theorem mem_insertBy {α : Type} (le : α → α → Bool) (x : α) (l : List α) (y : α) :
    y ∈ insertBy le x l → y = x ∨ y ∈ l := by
  induction l with
  | nil => intro h; simp [insertBy] at h; exact Or.inl h
  | cons z zs ih =>
    intro h
    simp only [insertBy] at h
    by_cases hle : le x z
    · simp [hle] at h
      rcases h with h | h | h
      · exact Or.inl h
      · exact Or.inr (by simp [h])
      · exact Or.inr (by simp [h])
    · simp [hle] at h
      rcases h with h | h
      · exact Or.inr (by simp [h])
      · rcases ih h with h1 | h1
        · exact Or.inl h1
        · exact Or.inr (by simp [h1])

theorem mem_sortBy {α : Type} (le : α → α → Bool) (l : List α) (y : α) :
    y ∈ sortBy le l → y ∈ l := by
  induction l with
  | nil => intro h; simp [sortBy] at h
  | cons z zs ih =>
    intro h
    simp only [sortBy] at h
    rcases mem_insertBy le z (sortBy le zs) y h with h1 | h1
    · simp [h1]
    · exact List.mem_cons_of_mem _ (ih h1)

/-- C1: under a versioned definition the record update operation never
retires the current revision and never inserts a successor: on every input
the store comes back unchanged and the call fails, and even the (unreachable)
in-place mutation step leaves `version`, `isCurrent` and `expiredAt` of the
targeted document untouched — there is no retire-and-insert transition
anywhere. -/
theorem updateEntityRecord_never_retires_nor_inserts (db : DB) (userId : Nat)
    (entityCode : String) (recordId : Nat) (body : RecordBody) (now : Int)
    (e : Entity) (r : EntityRecord) :
    (updateEntityRecord db userId entityCode recordId body now).2 = db ∧
    exceptOk (updateEntityRecord db userId entityCode recordId body now).1 = false ∧
    (applyRecordPatch e r body userId now).version = r.version ∧
    (applyRecordPatch e r body userId now).isCurrent = r.isCurrent ∧
    (applyRecordPatch e r body userId now).expiredAt = r.expiredAt := by
  refine ⟨?_, ?_, ?_, ?_, ?_⟩
  · unfold updateEntityRecord
    split
    · rfl
    · split
      · rfl
      · rfl
  · unfold updateEntityRecord
    split
    · rfl
    · split
      · rfl
      · rfl
  · unfold applyRecordPatch
    split <;> split <;> split <;> rfl
  · unfold applyRecordPatch
    split <;> split <;> split <;> rfl
  · unfold applyRecordPatch
    split <;> split <;> split <;> rfl

/-- C4: record creation never succeeds, whatever the definition's
`entityActive` flag: the controller reads the undefined `entityIsActive`
property, so every create is rejected and nothing is inserted — in
particular for the usable CUSTOMER definition, which is rejected as
inactive. -/
theorem createEntityRecord_never_succeeds (db : DB) (userId : Nat)
    (entityCode : String) (body : RecordBody) (now : Int) :
    exceptOk (createEntityRecord db userId entityCode body now).1 = false ∧
    (createEntityRecord db userId entityCode body now).2 = db ∧
    customerEntity.derivedRecordConfig.activation.entityActive = true ∧
    createEntityRecord dbAfterCreate 7 "CUSTOMER" goodRecordBody 100 =
      (.error (.badRequest "Entity Customer is currently inactive and cannot accept new records"),
       dbAfterCreate) := by
  refine ⟨?_, ?_, by decide, by decide⟩
  · unfold createEntityRecord
    split
    · rfl
    · split
      · rfl
      · rfl
  · unfold createEntityRecord
    split
    · rfl
    · split
      · rfl
      · rfl

/-- C2: creating the versioned CUSTOMER definition and then creating a record
for it leaves zero current revisions for the business key — after one create
no revision at all is current, because the record create is rejected (the
controller reads the undefined `entityIsActive` property and the store is
untouched). -/
theorem create_sequence_yields_no_current_revision :
    (createEntity dbStart 7 createCustomerBody).2 = dbAfterCreate ∧
    exceptOk (createEntityRecord dbAfterCreate 7 "CUSTOMER" goodRecordBody 100).1 = false ∧
    ((createEntityRecord dbAfterCreate 7 "CUSTOMER" goodRecordBody 100).2.records.filter
      (fun r => r.isCurrent)).length = 0 := by decide

/-- C3: the data payload is never validated against the owning definition's
schemaDefinition: the record the create path would persist for a payload
missing the required `customerCode` field passes the save-path validation
with no violations, and the create endpoint itself fails with the inactive
rejection, not with a violation list. -/
theorem record_data_schema_validation_absent :
    customerEntity.schemaDefinition.required = ["customerCode"] ∧
    lookupField ((recordOfData (buildRecordData customerEntity missingRequiredBody 7) 2 100).data.getD [])
      "customerCode" = none ∧
    recordValidateErrors (recordOfData (buildRecordData customerEntity missingRequiredBody 7) 2 100) = [] ∧
    createEntityRecord dbAfterCreate 7 "CUSTOMER" missingRequiredBody 100 =
      (.error (.badRequest "Entity Customer is currently inactive and cannot accept new records"),
       dbAfterCreate) := by decide

/-- C5: in the spec section 8 scenario (current version-1 CUSTOMER revision,
then an update changing the email), the update leaves the store unchanged and
the subsequent version listing returns the single version-1 revision, not the
versions N..1 chain the claim requires. -/
theorem version_listing_after_update_single :
    (updateEntityRecord dbSeeded 7 "CUSTOMER" 2 updateEmailBody 1000).2 = dbSeeded ∧
    getEntityRecordVersions dbSeeded "CUSTOMER" 2 = .ok [customerRecord1] ∧
    [customerRecord1].map (fun r => r.version) = [1] := by decide

/-- C6 counterexample: on the CUSTOMER definition with
`versioning.enabled = true`, an update whose patch contains
`derivedRecordConfig` but omits the `versioning` sub-object succeeds, and the
stored definition afterwards has `versioning.enabled = false` — the flag
transitioned true to false without any MonotonicConfigViolation. -/
theorem versioning_flag_reset_by_omitted_subobject :
    customerEntity.derivedRecordConfig.versioning.enabled = true ∧
    exceptOk (updateEntity dbAfterCreate 1 omitVersioningPatch).1 = true ∧
    ((updateEntity dbAfterCreate 1 omitVersioningPatch).2.entities.map
      (fun e => e.derivedRecordConfig.versioning.enabled)) = [false] := by decide

/-- C7 counterexample: an update whose patch contains a `code` field holding
JSON null (together with a rename) is not silently stripped: the update is
rejected by the code path's required validator and the rename is not applied,
so not every update containing a code field succeeds. -/
theorem null_code_patch_rejected_not_stripped :
    updateEntity dbAfterCreate 1 nullCodePatch =
      (.error (.badRequest "Entity code is required."), dbAfterCreate) := by decide

/-- C8: for the hierarchy-enabled DEPT definition, the record-assembly step
does place a supplied parent reference under the configured
`parentLinkField` name with no existence check, but the create endpoint
rejects every request as inactive, so no record storing the parent reference
is ever created (and the record schema declares no such path anyway). -/
theorem hierarchy_parent_create_rejected :
    deptEntity.derivedRecordConfig.hierarchy.enabled = true ∧
    (buildRecordData deptEntity deptBody 7).extra =
      [("parentDept", .str "60f7a4c67d0d8992e610c83")] ∧
    createEntityRecord dbDept 7 "DEPT" deptBody 50 =
      (.error (.badRequest "Entity Department is currently inactive and cannot accept new records"),
       dbDept) := by decide

theorem patchDisablesVersioning_setCode (p : EntityPatch) (c : Option (Option String)) :
    patchDisablesVersioning { p with code := c } = patchDisablesVersioning p := by
  cases p
  rfl

theorem patchDisablesHierarchy_setCode (p : EntityPatch) (c : Option (Option String)) :
    patchDisablesHierarchy { p with code := c } = patchDisablesHierarchy p := by
  cases p
  rfl

/-- C6 (amended): an update whose patch explicitly sets `versioning.enabled`
(resp. `hierarchy.enabled`) to false while the stored definition has it true
is rejected with the monotonic-violation error and leaves the store
unchanged.  (The counterexample above shows the flags are nevertheless not
monotonic: omitting the sub-object resets them.) -/
theorem explicit_monotonic_disable_rejected (db : DB) (i : Nat) (e : Entity) (p : EntityPatch)
    (hname : p.name ≠ some "")
    (hfind : db.entities.find? (fun x => x.id == i) = some e) :
    (e.derivedRecordConfig.versioning.enabled = true → patchDisablesVersioning p = true →
      updateEntity db i p =
        (.error (.badRequest "Cannot disable versioning once it has been enabled"), db)) ∧
    (e.derivedRecordConfig.hierarchy.enabled = true → patchDisablesHierarchy p = true →
      (e.derivedRecordConfig.versioning.enabled && patchDisablesVersioning p) = false →
      updateEntity db i p =
        (.error (.badRequest "Cannot disable hierarchy once it has been enabled"), db)) := by
  constructor
  · intro hv hd
    unfold updateEntity
    rw [if_neg hname]
    by_cases hc : truthyCodeField p.code
    · simp only [hc, if_true, hfind, patchDisablesVersioning_setCode, hv, hd,
        Bool.and_self, if_pos]
    · simp only [hc, Bool.false_eq_true, if_false, hfind, hv, hd, Bool.and_self, if_pos]
  · intro hh hdh hguard
    unfold updateEntity
    rw [if_neg hname]
    by_cases hc : truthyCodeField p.code
    · simp only [hc, if_true, hfind, patchDisablesVersioning_setCode,
        patchDisablesHierarchy_setCode, hguard, Bool.false_eq_true, if_false,
        hh, hdh, Bool.and_self, if_pos]
    · simp only [hc, Bool.false_eq_true, if_false, hfind, hguard, hh, hdh,
        Bool.and_self, if_pos]

/-- Witness for the amended C6 theorem at concrete inputs. -/
theorem explicit_monotonic_disable_rejected_witness :
    updateEntity dbBoth 8 explicitDisablePatch =
      (.error (.badRequest "Cannot disable versioning once it has been enabled"), dbBoth) ∧
    updateEntity dbBoth 8 hierDisablePatch =
      (.error (.badRequest "Cannot disable hierarchy once it has been enabled"), dbBoth) :=
  ⟨(explicit_monotonic_disable_rejected dbBoth 8 bothEntity explicitDisablePatch
      (by decide) (by decide)).1 rfl rfl,
   (explicit_monotonic_disable_rejected dbBoth 8 bothEntity hierDisablePatch
      (by decide) (by decide)).2 rfl rfl rfl⟩

/-- C7 (amended): the code stored by a successful definition create equals
the upper-cased input code, and an update whose patch carries a non-empty
string `code` behaves exactly like the same patch without the `code` field —
the field is silently stripped, the stored code stays unchanged and all other
patched fields are processed as usual.  (A null or empty `code` value is not
stripped; see the counterexample.) -/
theorem entity_code_fixed_at_create (db dbu : DB) (uid i : Nat) (body : CreateEntityBody)
    (e : Entity) (db2 : DB) (p : EntityPatch) (s : String) :
    (createEntity db uid body = (.ok e, db2) → e.code = jsToUpper (body.code.getD "")) ∧
    (s ≠ "" → updateEntity dbu i { p with code := some (some s) } =
      updateEntity dbu i { p with code := none }) := by
  constructor
  · intro h
    unfold createEntity at h
    dsimp only [] at h
    split at h
    · simp at h
    · split at h
      · simp at h
      · split at h
        · simp at h
        · split at h
          · simp at h
          · simp only [Prod.mk.injEq] at h
            obtain ⟨h1, h2⟩ := h
            obtain h3 := Except.ok.inj h1
            rw [← h3]
  · intro hs
    cases p with
    | mk c n d drc sd =>
      have ht : truthyCodeField (some (some s)) = true := by
        simp [truthyCodeField]
        exact hs
      have hf : truthyCodeField (none : Option (Option String)) = false := rfl
      unfold updateEntity
      simp only [ht, hf, if_true, Bool.false_eq_true, if_false]

/-- Witness for the amended C7 theorem at concrete inputs. -/
theorem entity_code_fixed_at_create_witness :
    customerEntity.code = jsToUpper (createCustomerBody.code.getD "") ∧
    updateEntity dbAfterCreate 1 { renameBase with code := some (some "NEWCODE") } =
      updateEntity dbAfterCreate 1 { renameBase with code := none } :=
  ⟨(entity_code_fixed_at_create dbStart dbAfterCreate 7 1 createCustomerBody customerEntity
      dbAfterCreate renameBase "NEWCODE").1 (by decide),
   (entity_code_fixed_at_create dbStart dbAfterCreate 7 1 createCustomerBody customerEntity
      dbAfterCreate renameBase "NEWCODE").2 (by decide)⟩

/-- C9: every record admitted by the save-path validation with both
`effectiveFrom` and `effectiveTo` set has `effectiveFrom` strictly before
`effectiveTo`; but the create under the usable time-bounded CONTRACT
definition with `effectiveFrom` (2024-01-01) after `effectiveTo`
(2023-01-01) fails with the definition-inactive rejection — not a
validation-class ordering error — and no record is created. -/
theorem effective_window_ordering (r : EntityRecord) (a b : Int)
    (hok : recordValidateErrors r = []) (hf : r.effectiveFrom = some a)
    (ht : r.effectiveTo = some b) :
    a < b ∧
    contractEntity.derivedRecordConfig.activation.useTimeBounding = true ∧
    createEntityRecord dbContract 7 "CONTRACT" badTimeBody 0 =
      (.error (.badRequest "Entity Contract is currently inactive and cannot accept new records"),
       dbContract) := by
  refine ⟨?_, by decide, by decide⟩
  unfold recordValidateErrors at hok
  rw [hf, ht] at hok
  by_cases hab : a ≥ b
  · simp [hab] at hok
  · omega

/-- Witness for the C9 theorem at a concrete record. -/
theorem effective_window_ordering_witness :
    (5 : Int) < 7 ∧
    contractEntity.derivedRecordConfig.activation.useTimeBounding = true ∧
    createEntityRecord dbContract 7 "CONTRACT" badTimeBody 0 =
      (.error (.badRequest "Entity Contract is currently inactive and cannot accept new records"),
       dbContract) :=
  effective_window_ordering okWindowRecord 5 7 (by decide) rfl rfl

/-- C10: when the caller supplies no `currentOnly` query parameter, the
records listing filters on `isCurrent = true` (the parameter defaults to the
string true), so every record it returns is a current revision and retired
revisions are omitted. -/
theorem records_listing_defaults_to_current_only (db : DB) (entityCode : String)
    (q : RecordsQuery) (tm : String → JsonObject → Bool) (out : List EntityRecord)
    (r : EntityRecord) (hq : q.currentOnly = none)
    (hout : getEntityRecords db entityCode q tm = .ok out) (hr : r ∈ out) :
    r.isCurrent = true := by
  unfold getEntityRecords at hout
  dsimp only [] at hout
  split at hout
  · exact absurd hout (by simp)
  · simp only [Except.ok.injEq] at hout
    subst hout
    have h1 : r ∈ sortBy (fun a b => decide (b.createdAt ≤ a.createdAt))
        (db.records.filter (matchesRecordsQuery (jsToUpper entityCode) q tm)) :=
      List.drop_subset _ _ (List.take_subset _ _ hr)
    have h2 := mem_sortBy _ _ _ h1
    have h3 := (List.mem_filter.mp h2).2
    unfold matchesRecordsQuery at h3
    rw [hq] at h3
    simp only [Option.getD, beq_self_eq_true, if_true, Bool.and_eq_true] at h3
    exact h3.1.1.2

/-- Witness for the C10 theorem: in a store holding one current and one
retired revision, the unparameterised listing returns exactly the current
one. -/
theorem records_listing_defaults_to_current_only_witness :
    customerRecord1.isCurrent = true :=
  records_listing_defaults_to_current_only dbTwoRevisions "CUSTOMER" emptyRecordsQuery
    noTextMatch [customerRecord1] customerRecord1 rfl (by decide) (by simp)
